import Mathlib

/-!
Verification of the NetMonitor Pro monitoring engine (`src/monitor.py`,
`src/app.py`) against its specification.

Numeric values that are Python floats (latencies, packet-loss percentages,
byte rates, timestamps) are modelled as rationals (`ℚ`), cumulative byte
counters as integers (`Int`).  Python dictionaries are modelled as
association lists with `List.lookup`.  Code paths that in Python are reached
by a raised-and-caught exception are modelled as explicit constructors /
`Option` inputs, so that every `except` branch of the source appears as a
branch of the Lean definition.
-/

namespace NetMonitor

/-! ## Data model (`src/monitor.py`) -/

/-- Embedding of the `PingResult` dataclass (monitor.py lines 16-23).
The `timestamp` field (a wall-clock default) is not modelled; no claim
mentions it. -/
structure PingResult where
  target_name : String
  target_ip : String
  latency_ms : Option ℚ
  packet_loss : ℚ
  status : String
deriving Repr, DecidableEq

/-- Outcome of the out-of-process ping invocation as seen by
`PingMonitor.ping` after parsing (monitor.py lines 48-89): either the
subprocess completed and the two parsers produced `latency`
(`_parse_latency`, `None` on no match) and `packet_loss`
(`_parse_packet_loss`, `0.0` on no match), or `asyncio.wait_for` raised
`asyncio.TimeoutError`, or some other exception was raised. -/
inductive PingRaw where
  | completed (latency : Option ℚ) (packet_loss : ℚ)
  | timedOut
  | errored
deriving Repr, DecidableEq

namespace PingMonitor

/-- Embedding of `PingMonitor.ping` (monitor.py lines 43-89) from the point
where the subprocess outcome is known: the status derivation
`if latency is not None: success / elif packet_loss == 100: timeout (latency = None)
/ else: partial`, the `except asyncio.TimeoutError` branch returning
`(None, 100.0, "timeout")`, and the generic `except` branch returning
`(None, 100.0, "error")`. -/
def ping (raw : PingRaw) : Option ℚ × ℚ × String :=
  match raw with
  | .completed latency packet_loss =>
    match latency with
    | some l => (some l, packet_loss, "success")
    | none =>
      if packet_loss = 100 then (none, packet_loss, "timeout")
      else (none, packet_loss, "partial")
  | .timedOut => (none, 100, "timeout")
  | .errored => (none, 100, "error")

/-- Embedding of `PingMonitor.ping_target` (monitor.py lines 128-139): calls
`ping` and packs the triple into a `PingResult`.  The update of the
`last_results` cache does not alter the returned result and is not modelled
here. -/
def ping_target (name ip : String) (raw : PingRaw) : PingResult :=
  let r := ping raw
  { target_name := name
    target_ip := ip
    latency_ms := r.1
    packet_loss := r.2.1
    status := r.2.2 }

end PingMonitor

/-- C1: for every `PingResult` produced by the prober
(`PingMonitor.ping` / `ping_target`), on every path — completed subprocess
with any parse outcome, overall timeout, and any other error —
`latency_ms` is present if and only if `status` equals `"success"`. -/
theorem ping_target_latency_iff_success (name ip : String) (raw : PingRaw) :
    (PingMonitor.ping_target name ip raw).latency_ms.isSome = true ↔
      (PingMonitor.ping_target name ip raw).status = "success" := by
  cases raw with
  | completed latency packet_loss =>
    cases latency with
    | none =>
      simp only [PingMonitor.ping_target, PingMonitor.ping]
      split <;> simp
    | some l =>
      simp [PingMonitor.ping_target, PingMonitor.ping]
  | timedOut =>
    simp [PingMonitor.ping_target, PingMonitor.ping]
  | errored =>
    simp [PingMonitor.ping_target, PingMonitor.ping]

/-! ## Bandwidth measurement (`src/monitor.py`, class `BandwidthMonitor`) -/

/-- Embedding of the `BandwidthMeasurement` dataclass (monitor.py lines
26-34).  The `timestamp` field is not modelled; no claim mentions it. -/
structure BandwidthMeasurement where
  gateway_name : String
  interface : String
  bytes_sent : Int
  bytes_recv : Int
  bytes_sent_rate : ℚ
  bytes_recv_rate : ℚ
deriving Repr, DecidableEq

/-- Mutable state of a `BandwidthMonitor` instance: the
`last_measurements` dictionary, interface name to
`(bytes_sent, bytes_recv, timestamp)` (monitor.py line 146), modelled as an
association list where an update conses a fresh binding (so `List.lookup`
returns the most recent one, as the Python dict does).  The `current_rates`
dictionary is not modelled; no claim mentions it. -/
structure BandwidthMonitor where
  last_measurements : List (String × Int × Int × ℚ)
deriving Repr, DecidableEq

/-- The `psutil.net_io_counters(pernic=True)` snapshot: `none` when the read
raises (the generic `except` branch of `measure`), otherwise the map from
interface name to its cumulative `(bytes_sent, bytes_recv)` counters. -/
abbrev NetSnapshot := Option (List (String × Int × Int))

/-- The zero-valued `BandwidthMeasurement` that `measure` returns on its
missing-interface and exception paths (monitor.py lines 164-171 and
209-216). -/
def zeroMeasurement (gateway_name interface : String) : BandwidthMeasurement :=
  { gateway_name := gateway_name
    interface := interface
    bytes_sent := 0
    bytes_recv := 0
    bytes_sent_rate := 0
    bytes_recv_rate := 0 }

namespace BandwidthMonitor

/-- Embedding of `BandwidthMonitor.measure` (monitor.py lines 154-216).
Paths, in source order: the surrounding `try` fails (`snap = none`) — zero
measurement, state untouched; `interface not in stats` — zero measurement,
state untouched; otherwise read the current counters, compute
`(current - last) / time_diff` per direction when a previous measurement
exists and `time_diff > 0` (else `0`), store the current
`(sent, recv, time)` triple in `last_measurements`, and return the
measurement with both rates clamped by `max(0, ...)`. -/
def measure (self : BandwidthMonitor) (snap : NetSnapshot)
    (gateway_name interface : String) (current_time : ℚ) :
    BandwidthMeasurement × BandwidthMonitor :=
  match snap with
  | none => (zeroMeasurement gateway_name interface, self)
  | some stats =>
    match stats.lookup interface with
    | none => (zeroMeasurement gateway_name interface, self)
    | some (current_sent, current_recv) =>
      let rates : ℚ × ℚ :=
        match self.last_measurements.lookup interface with
        | some (last_sent, last_recv, last_time) =>
          let time_diff := current_time - last_time
          if 0 < time_diff then
            (((current_sent - last_sent : Int) : ℚ) / time_diff,
             ((current_recv - last_recv : Int) : ℚ) / time_diff)
          else (0, 0)
        | none => (0, 0)
      let self' : BandwidthMonitor :=
        ⟨(interface, current_sent, current_recv, current_time) ::
          self.last_measurements⟩
      ({ gateway_name := gateway_name
         interface := interface
         bytes_sent := current_sent
         bytes_recv := current_recv
         bytes_sent_rate := max 0 rates.1
         bytes_recv_rate := max 0 rates.2 }, self')

end BandwidthMonitor

/-- C4: every `BandwidthMeasurement` returned by `measure`, on every path
(exception, missing interface, first sample of an interface, non-positive
elapsed time, decreasing counters, normal delta), has
`bytes_sent_rate ≥ 0` and `bytes_recv_rate ≥ 0`. -/
theorem measure_rates_nonneg (self : BandwidthMonitor) (snap : NetSnapshot)
    (gateway_name interface : String) (current_time : ℚ) :
    0 ≤ (self.measure snap gateway_name interface current_time).1.bytes_sent_rate ∧
      0 ≤ (self.measure snap gateway_name interface current_time).1.bytes_recv_rate := by
  cases snap with
  | none => simp [BandwidthMonitor.measure, zeroMeasurement]
  | some stats =>
    cases h : stats.lookup interface with
    | none => simp [BandwidthMonitor.measure, h, zeroMeasurement]
    | some p =>
      obtain ⟨cs, cr⟩ := p
      simp only [BandwidthMonitor.measure, h]
      exact ⟨le_max_left 0 _, le_max_left 0 _⟩

/-- C3: two consecutive `measure` calls on the same interface, where the
second sees counters larger by `ΔS`/`ΔR` after elapsed time `Δt > 0`, give a
second measurement whose rates are exactly `ΔS / Δt` and `ΔR / Δt` (the
model computes in `ℚ`, so equality is exact). -/
theorem measure_consecutive_rates
    (self : BandwidthMonitor) (stats₁ stats₂ : List (String × Int × Int))
    (g₁ g₂ interface : String) (s₁ r₁ s₂ r₂ : Int) (t₁ t₂ : ℚ)
    (h₁ : stats₁.lookup interface = some (s₁, r₁))
    (h₂ : stats₂.lookup interface = some (s₂, r₂))
    (hdt : t₁ < t₂) (hs : s₁ ≤ s₂) (hr : r₁ ≤ r₂) :
    (((self.measure (some stats₁) g₁ interface t₁).2).measure
        (some stats₂) g₂ interface t₂).1.bytes_sent_rate
        = ((s₂ - s₁ : Int) : ℚ) / (t₂ - t₁) ∧
      (((self.measure (some stats₁) g₁ interface t₁).2).measure
        (some stats₂) g₂ interface t₂).1.bytes_recv_rate
        = ((r₂ - r₁ : Int) : ℚ) / (t₂ - t₁) := by
  have hpos : (0 : ℚ) < t₂ - t₁ := by linarith
  have hsent : (0 : ℚ) ≤ ((s₂ : ℚ) - (s₁ : ℚ)) / (t₂ - t₁) :=
    div_nonneg (by exact_mod_cast sub_nonneg.mpr hs) hpos.le
  have hrecv : (0 : ℚ) ≤ ((r₂ : ℚ) - (r₁ : ℚ)) / (t₂ - t₁) :=
    div_nonneg (by exact_mod_cast sub_nonneg.mpr hr) hpos.le
  simp only [BandwidthMonitor.measure, h₁, h₂, List.lookup_cons_self, hpos,
    if_pos, sub_pos, hdt, if_true]
  push_cast
  exact ⟨max_eq_right hsent, max_eq_right hrecv⟩

/-- Witness for C3 at the spec's scenario 2: interface `eth0` first sampled
at `t = 0` with counters `(1000, 2000)`, again at `t = 5` with counters
`(6000, 7000)`; both rates of the second sample equal `1000` bytes/sec. -/
theorem measure_consecutive_rates_witness :
    ((((⟨[]⟩ : BandwidthMonitor).measure (some [("eth0", 1000, 2000)])
        "gw" "eth0" 0).2).measure
      (some [("eth0", 6000, 7000)]) "gw" "eth0" 5).1.bytes_sent_rate = 1000 ∧
    ((((⟨[]⟩ : BandwidthMonitor).measure (some [("eth0", 1000, 2000)])
        "gw" "eth0" 0).2).measure
      (some [("eth0", 6000, 7000)]) "gw" "eth0" 5).1.bytes_recv_rate = 1000 := by
  have h := measure_consecutive_rates ⟨[]⟩ [("eth0", 1000, 2000)]
    [("eth0", 6000, 7000)] "gw" "gw" "eth0" 1000 2000 6000 7000 0 5
    rfl rfl (by norm_num) (by norm_num) (by norm_num)
  refine ⟨h.1.trans (by norm_num), h.2.trans (by norm_num)⟩

/-- C5: a `measure` call naming an interface absent from the current counter
snapshot returns the all-zero measurement, does not raise, and leaves the
`last_measurements` cache (in particular the entry for that interface)
unchanged. -/
theorem measure_missing_interface
    (self : BandwidthMonitor) (stats : List (String × Int × Int))
    (gateway_name interface : String) (current_time : ℚ)
    (h : stats.lookup interface = none) :
    (self.measure (some stats) gateway_name interface current_time).1
        = zeroMeasurement gateway_name interface ∧
      (self.measure (some stats) gateway_name interface current_time).2 = self := by
  simp [BandwidthMonitor.measure, h]

/-- Witness for C5: measuring `eth1` against a snapshot that only holds
`eth0` yields the zero measurement and an unchanged cache. -/
theorem measure_missing_interface_witness :
    ((⟨[("eth0", 3, 4, 1)]⟩ : BandwidthMonitor).measure
        (some [("eth0", 10, 20)]) "gw" "eth1" 2).1 = zeroMeasurement "gw" "eth1" ∧
      ((⟨[("eth0", 3, 4, 1)]⟩ : BandwidthMonitor).measure
        (some [("eth0", 10, 20)]) "gw" "eth1" 2).2 = ⟨[("eth0", 3, 4, 1)]⟩ :=
  measure_missing_interface ⟨[("eth0", 3, 4, 1)]⟩ [("eth0", 10, 20)]
    "gw" "eth1" 2 (by decide)

/-- C10: a `measure` call on an interface with a prior cached sample whose
elapsed time is zero or negative returns both rates equal to `0`; the
division is behind the `time_diff > 0` guard, so a non-advancing or
backwards clock cannot make `measure` fail. -/
theorem measure_nonpositive_elapsed
    (self : BandwidthMonitor) (stats : List (String × Int × Int))
    (gateway_name interface : String) (s₁ r₁ s₂ r₂ : Int) (t₁ t₂ : ℚ)
    (hstat : stats.lookup interface = some (s₂, r₂))
    (hcache : self.last_measurements.lookup interface = some (s₁, r₁, t₁))
    (hdt : t₂ - t₁ ≤ 0) :
    (self.measure (some stats) gateway_name interface t₂).1.bytes_sent_rate = 0 ∧
      (self.measure (some stats) gateway_name interface t₂).1.bytes_recv_rate = 0 := by
  have hneg : ¬ (0 : ℚ) < t₂ - t₁ := not_lt.mpr hdt
  simp [BandwidthMonitor.measure, hstat, hcache, hneg]

/-- Witness for C10: a second sample of `eth0` taken at the same timestamp
as the cached one (elapsed time `0`) reports both rates as `0`. -/
theorem measure_nonpositive_elapsed_witness :
    ((⟨[("eth0", 1000, 2000, 5)]⟩ : BandwidthMonitor).measure
        (some [("eth0", 6000, 7000)]) "gw" "eth0" 5).1.bytes_sent_rate = 0 ∧
      ((⟨[("eth0", 1000, 2000, 5)]⟩ : BandwidthMonitor).measure
        (some [("eth0", 6000, 7000)]) "gw" "eth0" 5).1.bytes_recv_rate = 0 :=
  measure_nonpositive_elapsed ⟨[("eth0", 1000, 2000, 5)]⟩
    [("eth0", 6000, 7000)] "gw" "eth0" 1000 2000 6000 7000 5 5
    (by decide) (by decide) (by norm_num)

/-! ## Ping cycle (`src/monitor.py`, class `NetworkMonitor`) -/

/-- Embedding of one entry of `config['targets']`: the dictionary keys read
by `NetworkMonitor.ping_all_targets` (monitor.py lines 251-254) and by
`add_target` (app.py lines 380-394).  `type` is an `Option` because
`target.get('type')` yields `None` when the key is absent. -/
structure Target where
  name : String
  ip : String
  enabled : Bool
  type : Option String
deriving Repr, DecidableEq

namespace NetworkMonitor

/-- Embedding of the task-building loop of `ping_all_targets` (monitor.py
lines 250-255): walk the target list in order and keep the `(name, ip)` of
every target with `target.get('enabled', True)` truthy and
`target.get('type') == 'ping'`. -/
def collect_tasks : List Target → List (String × String)
  | [] => []
  | t :: ts =>
    if t.enabled && t.type == some "ping" then (t.name, t.ip) :: collect_tasks ts
    else collect_tasks ts

/-- Embedding of `NetworkMonitor.ping_all_targets` (monitor.py lines
244-260): `asyncio.gather` runs `ping_target` for each collected task and
returns the results in task order.  `raw` gives, per target IP, the outcome
of the underlying ping invocation. -/
def ping_all_targets (targets : List Target) (raw : String → PingRaw) :
    List PingResult :=
  (collect_tasks targets).map (fun p => PingMonitor.ping_target p.1 p.2 (raw p.2))

end NetworkMonitor

/-- Counterexample to C2 as stated: a single enabled target whose dictionary
has no `type` key (as produced, e.g., by the second `POST /api/targets`
handler at app.py lines 504-509, which appends `target.dict()` without a
`type` field) is skipped by the cycle, so the cycle returns zero results
while the enabled-target count is one. -/
theorem ping_all_targets_missing_type_counterexample :
    (NetworkMonitor.ping_all_targets
        [{ name := "A", ip := "10.0.0.1", enabled := true, type := none }]
        (fun _ => PingRaw.errored)).length = 0 ∧
      ([({ name := "A", ip := "10.0.0.1", enabled := true, type := none } :
          Target)].filter (fun t => t.enabled)).length = 1 := by
  constructor <;> rfl

/-- C2 (amended): one ping cycle returns exactly one result per enabled
target whose `type` is `'ping'` (targets of other or missing types are
skipped), in target-iteration order — the result list is exactly the map of
`ping_target` over the filtered target list — and every per-target failure
is represented as a result status (`success`, `timeout`, `partial` or
`error`), never propagated as an exception. -/
theorem ping_all_targets_per_enabled_ping_target
    (targets : List Target) (raw : String → PingRaw) :
    NetworkMonitor.ping_all_targets targets raw =
      (targets.filter (fun t => t.enabled && t.type == some "ping")).map
        (fun t => PingMonitor.ping_target t.name t.ip (raw t.ip)) ∧
      ∀ r ∈ NetworkMonitor.ping_all_targets targets raw,
        r.status = "success" ∨ r.status = "timeout" ∨ r.status = "partial" ∨
          r.status = "error" := by
  constructor
  · unfold NetworkMonitor.ping_all_targets
    induction targets with
    | nil => rfl
    | cons t ts ih =>
      by_cases h : (t.enabled && t.type == some "ping") = true
      · simp [NetworkMonitor.collect_tasks, h, List.filter_cons, ih]
      · simp [NetworkMonitor.collect_tasks, h, List.filter_cons, ih]
  · intro r hr
    unfold NetworkMonitor.ping_all_targets at hr
    obtain ⟨p, _, rfl⟩ := List.mem_map.mp hr
    cases hraw : raw p.2 with
    | completed latency packet_loss =>
      cases latency with
      | none =>
        by_cases hl : packet_loss = 100 <;>
          simp [PingMonitor.ping_target, PingMonitor.ping, hraw, hl]
      | some l => simp [PingMonitor.ping_target, PingMonitor.ping, hraw]
    | timedOut => simp [PingMonitor.ping_target, PingMonitor.ping, hraw]
    | errored => simp [PingMonitor.ping_target, PingMonitor.ping, hraw]

/-- Witness for C2 (amended): on a one-target cycle whose ping times out,
the timeout result is in the cycle's output and its status is one of the
four result statuses. -/
theorem ping_all_targets_per_enabled_ping_target_witness :
    ({ target_name := "A", target_ip := "1.1.1.1", latency_ms := none,
       packet_loss := 100, status := "timeout" } : PingResult).status = "success" ∨
      ({ target_name := "A", target_ip := "1.1.1.1", latency_ms := none,
         packet_loss := 100, status := "timeout" } : PingResult).status = "timeout" ∨
      ({ target_name := "A", target_ip := "1.1.1.1", latency_ms := none,
         packet_loss := 100, status := "timeout" } : PingResult).status = "partial" ∨
      ({ target_name := "A", target_ip := "1.1.1.1", latency_ms := none,
         packet_loss := 100, status := "timeout" } : PingResult).status = "error" :=
  (ping_all_targets_per_enabled_ping_target
      [{ name := "A", ip := "1.1.1.1", enabled := true, type := some "ping" }]
      (fun _ => PingRaw.timedOut)).2 _ (by decide)

/-! ## Alert derivation (`src/app.py`, `ping_task`, lines 136-155) -/

/-- Embedding of the `config['alerts']` dictionary as read by `ping_task`:
`enabled` (default `False`), `ping_threshold_ms` (default `100`) and
`packet_loss_threshold_percent` (default `5`). -/
structure AlertsConfig where
  enabled : Bool
  ping_threshold_ms : ℚ
  packet_loss_threshold_percent : ℚ
deriving Repr, DecidableEq

/-- Embedding of an alert as passed to `save_alert` by `ping_task`: its
`alert_type`, `target_name` and `severity` arguments.  The human-readable
`message` argument is not modelled; no claim mentions it. -/
structure Alert where
  type : String
  target_name : String
  severity : String
deriving Repr, DecidableEq

/-- Embedding of the alert-evaluation block of `ping_task` (app.py lines
136-155) for one probe result.  The first guard is the Python truthiness
test `if result.latency_ms and result.latency_ms > ...`: it requires
`latency_ms` to be non-`None` AND non-zero before the threshold comparison.
The second guard is `if result.packet_loss > ...`, with severity
`'critical' if result.packet_loss > 50 else 'warning'`.  Nothing is emitted
when `alerts_config.get('enabled', False)` is falsy. -/
def ping_task_alerts (alerts_config : AlertsConfig) (result : PingResult) :
    List Alert :=
  if alerts_config.enabled then
    (match result.latency_ms with
      | some l =>
        if l ≠ 0 ∧ alerts_config.ping_threshold_ms < l then
          [{ type := "high_latency", target_name := result.target_name,
             severity := "warning" }]
        else []
      | none => []) ++
    (if alerts_config.packet_loss_threshold_percent < result.packet_loss then
      [{ type := "packet_loss", target_name := result.target_name,
         severity := if 50 < result.packet_loss then "critical" else "warning" }]
    else [])
  else []

/-- Characterization of membership in `ping_task_alerts` when alerts are
enabled: an alert is emitted exactly when it is the `high_latency` warning
alert under the truthiness-guarded latency condition, or the `packet_loss`
alert under the loss condition, with its severity decided by the `> 50`
test. -/
theorem mem_ping_task_alerts (alerts_config : AlertsConfig)
    (result : PingResult) (a : Alert) (h : alerts_config.enabled = true) :
    a ∈ ping_task_alerts alerts_config result ↔
      ((∃ l, result.latency_ms = some l ∧ l ≠ 0 ∧
          alerts_config.ping_threshold_ms < l) ∧
        a = { type := "high_latency", target_name := result.target_name,
              severity := "warning" }) ∨
      (alerts_config.packet_loss_threshold_percent < result.packet_loss ∧
        a = { type := "packet_loss", target_name := result.target_name,
              severity := if 50 < result.packet_loss then "critical"
                          else "warning" }) := by
  cases hl : result.latency_ms with
  | none =>
    by_cases hp : alerts_config.packet_loss_threshold_percent <
        result.packet_loss <;>
      simp [ping_task_alerts, h, hl, hp]
  | some l =>
    by_cases hc : l ≠ 0 ∧ alerts_config.ping_threshold_ms < l <;>
      by_cases hp : alerts_config.packet_loss_threshold_percent <
          result.packet_loss <;>
        simp [ping_task_alerts, h, hl, hc, hp]

/-- Counterexample to C6 as stated: with thresholds enabled, latency
threshold `-1` and a probe result whose parsed latency is `0.0` ms,
`latency_ms` is present and exceeds the threshold (`0 > -1`), yet the
truthiness guard `if result.latency_ms and ...` treats `0.0` as falsy and
no alert is emitted. -/
theorem high_latency_truthiness_counterexample :
    ping_task_alerts
        { enabled := true, ping_threshold_ms := -1,
          packet_loss_threshold_percent := 200 }
        { target_name := "A", target_ip := "1.1.1.1", latency_ms := some 0,
          packet_loss := 0, status := "success" } = [] ∧
      (some (0 : ℚ)).isSome = true ∧ (-1 : ℚ) < 0 := by
  refine ⟨?_, rfl, by norm_num⟩
  norm_num [ping_task_alerts]

/-- C6 (amended): with thresholds disabled no alert of any kind is emitted;
with thresholds enabled, the `high_latency` alert with severity `warning`
is emitted if and only if `latency_ms` is present, nonzero (the code's
truthiness guard), and exceeds the configured latency threshold, and every
emitted `high_latency` alert has severity `warning`. -/
theorem high_latency_alert_iff (alerts_config : AlertsConfig)
    (result : PingResult) :
    (alerts_config.enabled = false →
      ping_task_alerts alerts_config result = []) ∧
    (alerts_config.enabled = true →
      ((({ type := "high_latency", target_name := result.target_name,
           severity := "warning" } : Alert)
          ∈ ping_task_alerts alerts_config result) ↔
        ∃ l, result.latency_ms = some l ∧ l ≠ 0 ∧
          alerts_config.ping_threshold_ms < l) ∧
      ∀ a ∈ ping_task_alerts alerts_config result,
        a.type = "high_latency" → a.severity = "warning") := by
  constructor
  · intro h
    simp [ping_task_alerts, h]
  · intro h
    constructor
    · rw [mem_ping_task_alerts _ _ _ h]
      constructor
      · rintro (⟨hcond, -⟩ | ⟨hp, heq⟩)
        · exact hcond
        · exfalso
          have := congrArg Alert.type heq
          simp at this
      · intro hcond
        exact Or.inl ⟨hcond, rfl⟩
    · intro a ha htype
      rw [mem_ping_task_alerts _ _ _ h] at ha
      rcases ha with ⟨-, rfl⟩ | ⟨hp, rfl⟩
      · rfl
      · exfalso
        simp at htype

/-- Witness for C6 (amended): with thresholds enabled, latency threshold
`100` and a result whose latency is `150` ms, the `high_latency` warning
alert is emitted. -/
theorem high_latency_alert_iff_witness :
    ({ type := "high_latency", target_name := "A",
       severity := "warning" } : Alert) ∈
      ping_task_alerts
        { enabled := true, ping_threshold_ms := 100,
          packet_loss_threshold_percent := 5 }
        { target_name := "A", target_ip := "1.1.1.1", latency_ms := some 150,
          packet_loss := 0, status := "success" } :=
  ((high_latency_alert_iff
      { enabled := true, ping_threshold_ms := 100,
        packet_loss_threshold_percent := 5 }
      { target_name := "A", target_ip := "1.1.1.1", latency_ms := some 150,
        packet_loss := 0, status := "success" }).2 rfl).1.mpr
    ⟨150, rfl, by norm_num, by norm_num⟩

/-- C7: with thresholds enabled, a `packet_loss` alert is emitted if and
only if `packet_loss` exceeds the configured loss threshold, and among all
emitted alerts severity is `critical` if and only if the alert type is
`packet_loss` and the loss exceeds `50`; every emitted alert's severity is
`warning` or `critical`. -/
theorem packet_loss_alert_iff (alerts_config : AlertsConfig)
    (result : PingResult) (h : alerts_config.enabled = true) :
    ((∃ a ∈ ping_task_alerts alerts_config result, a.type = "packet_loss") ↔
      alerts_config.packet_loss_threshold_percent < result.packet_loss) ∧
    ∀ a ∈ ping_task_alerts alerts_config result,
      (a.severity = "critical" ↔
        a.type = "packet_loss" ∧ (50 : ℚ) < result.packet_loss) ∧
      (a.severity = "warning" ∨ a.severity = "critical") := by
  constructor
  · constructor
    · rintro ⟨a, ha, htype⟩
      rw [mem_ping_task_alerts _ _ _ h] at ha
      rcases ha with ⟨-, rfl⟩ | ⟨hp, rfl⟩
      · exfalso
        simp at htype
      · exact hp
    · intro hp
      exact ⟨_, (mem_ping_task_alerts _ _ _ h).mpr (Or.inr ⟨hp, rfl⟩), rfl⟩
  · intro a ha
    rw [mem_ping_task_alerts _ _ _ h] at ha
    rcases ha with ⟨-, rfl⟩ | ⟨hp, rfl⟩
    · exact ⟨⟨fun hsev => absurd hsev (by simp),
        fun hc => absurd hc.1 (by simp)⟩, Or.inl rfl⟩
    · by_cases h50 : (50 : ℚ) < result.packet_loss <;> simp [h50]

/-- Witness for C7 at the spec's scenario 4: thresholds enabled with loss
threshold `5`, probe result with loss `60` — a `packet_loss` alert is
emitted (and, by evaluation, it is `critical`). -/
theorem packet_loss_alert_iff_witness :
    ∃ a ∈ ping_task_alerts
        { enabled := true, ping_threshold_ms := 100,
          packet_loss_threshold_percent := 5 }
        { target_name := "A", target_ip := "1.1.1.1", latency_ms := none,
          packet_loss := 60, status := "timeout" },
      a.type = "packet_loss" :=
  (packet_loss_alert_iff
      { enabled := true, ping_threshold_ms := 100,
        packet_loss_threshold_percent := 5 }
      { target_name := "A", target_ip := "1.1.1.1", latency_ms := none,
        packet_loss := 60, status := "timeout" } rfl).1.mpr (by norm_num)

/-! ## Broadcast hub (`src/app.py`, class `ConnectionManager`) -/

namespace ConnectionManager

/-- Embedding of the send loop of `ConnectionManager.broadcast` (app.py
lines 101-106): subscriber handles are opaque ids (`ℕ`), `sendOk c` tells
whether `connection.send_json(message)` succeeds for handle `c` (any raised
exception is caught by the per-connection `try`/`except`).  Returns the
handles a send was attempted on and the `disconnected` accumulator. -/
def broadcast_loop (sendOk : ℕ → Bool) : List ℕ → List ℕ × List ℕ
  | [] => ([], [])
  | c :: cs =>
    let rest := broadcast_loop sendOk cs
    (c :: rest.1, if sendOk c then rest.2 else c :: rest.2)

/-- Embedding of `ConnectionManager.broadcast` (app.py lines 97-109): early
return when the active set is empty; otherwise attempt a send to every
active connection, collecting failures, and afterwards remove the
`disconnected` set from the active set
(`self.active_connections -= disconnected`).  Result: the handles sends
were attempted on, and the new active set. -/
def broadcast (active : List ℕ) (sendOk : ℕ → Bool) : List ℕ × List ℕ :=
  if active.isEmpty then ([], active)
  else
    let r := broadcast_loop sendOk active
    (r.1, active.filter (fun c => decide (c ∉ r.2)))

end ConnectionManager

/-- The loop of `broadcast` attempts a send on every active handle and
accumulates exactly the handles whose send failed. -/
theorem broadcast_loop_spec (sendOk : ℕ → Bool) (l : List ℕ) :
    (ConnectionManager.broadcast_loop sendOk l).1 = l ∧
      (ConnectionManager.broadcast_loop sendOk l).2
        = l.filter (fun c => !(sendOk c)) := by
  induction l with
  | nil => exact ⟨rfl, rfl⟩
  | cons c cs ih =>
    by_cases h : sendOk c <;>
      simp [ConnectionManager.broadcast_loop, h, List.filter_cons, ih.1, ih.2]

/-- C8: for every active set and every assignment of success/failure to the
individual sends, `broadcast` attempts a send to every handle in the active
set, and after the full pass the new active set keeps exactly the handles
whose send succeeded — the failed ones are removed.  In the model
`broadcast` is a total function, so it never raises to its caller. -/
theorem broadcast_attempts_all_prunes_failed (active : List ℕ)
    (sendOk : ℕ → Bool) :
    (ConnectionManager.broadcast active sendOk).1 = active ∧
      (ConnectionManager.broadcast active sendOk).2
        = active.filter sendOk := by
  unfold ConnectionManager.broadcast
  by_cases hempty : active.isEmpty
  · rw [if_pos hempty]
    cases active with
    | nil => exact ⟨rfl, rfl⟩
    | cons c cs => simp at hempty
  · rw [if_neg hempty]
    have hl := broadcast_loop_spec sendOk active
    refine ⟨hl.1, ?_⟩
    show List.filter
        (fun c => decide (c ∉ (ConnectionManager.broadcast_loop sendOk active).2))
        active = List.filter sendOk active
    rw [hl.2]
    apply List.filter_congr
    intro c hc
    by_cases h : sendOk c <;> simp [List.mem_filter, hc, h]

/-! ## Target creation (`src/app.py`, `add_target`, lines 374-404) -/

/-- Embedding of the duplicate check of the effective `POST /api/targets`
handler (app.py lines 380-385; of the two handlers registered on this
route, the router dispatches to the first one, lines 374-404): walk the
existing targets and raise `HTTPException(400, ...)` on the first
case-insensitive name match or exact IP match. -/
def validate_new_target : List Target → String → String → Option String
  | [], _, _ => none
  | t :: ts, name, ip =>
    if t.name.toLower = name.toLower then
      some "Target with this name already exists"
    else if t.ip = ip then
      some "Target with this IP already exists"
    else validate_new_target ts name ip

/-- Outcome of one `add_target` request: the resulting target list, whether
the immediate extra ping cycle (`await ping_task()`) ran, and the
validation error, if any. -/
structure AddTargetOutcome where
  targets : List Target
  ping_triggered : Bool
  error : Option String
deriving Repr, DecidableEq

/-- Embedding of `add_target` (app.py lines 374-404): on a duplicate name
(case-insensitive) or IP the handler raises before touching the config, so
the target list is unchanged and no ping cycle runs; otherwise it appends
`{name, ip, type: "ping", enabled}`, saves, and triggers an immediate ping
cycle. -/
def add_target (targets : List Target) (name ip : String) (enabled : Bool) :
    AddTargetOutcome :=
  match validate_new_target targets name ip with
  | some err => { targets := targets, ping_triggered := false, error := some err }
  | none =>
    { targets := targets ++
        [{ name := name, ip := ip, enabled := enabled, type := some "ping" }],
      ping_triggered := true,
      error := none }

/-- The duplicate check fires exactly when some existing target matches the
new name case-insensitively or has the same IP. -/
theorem validate_new_target_isSome (targets : List Target) (name ip : String) :
    (validate_new_target targets name ip).isSome = true ↔
      ∃ t ∈ targets, t.name.toLower = name.toLower ∨ t.ip = ip := by
  induction targets with
  | nil => simp [validate_new_target]
  | cons t ts ih =>
    by_cases h1 : t.name.toLower = name.toLower
    · simp [validate_new_target, h1]
    · by_cases h2 : t.ip = ip
      · simp [validate_new_target, h1, h2]
      · simp [validate_new_target, h1, h2, ih]

/-- C9: an add-target request whose name matches an existing target's name
case-insensitively, or whose IP equals an existing target's IP, is rejected
with a validation error, leaves the target list unchanged, and triggers no
ping cycle for the rejected target; a request with a fresh name and IP is
accepted — the target is appended with `type: "ping"` and an immediate ping
cycle runs. -/
theorem add_target_rejects_duplicates (targets : List Target)
    (name ip : String) (enabled : Bool) :
    ((add_target targets name ip enabled).error.isSome = true ↔
      ∃ t ∈ targets, t.name.toLower = name.toLower ∨ t.ip = ip) ∧
    ((add_target targets name ip enabled).error.isSome = true →
      (add_target targets name ip enabled).targets = targets ∧
        (add_target targets name ip enabled).ping_triggered = false) ∧
    ((add_target targets name ip enabled).error = none →
      (add_target targets name ip enabled).targets = targets ++
          [{ name := name, ip := ip, enabled := enabled, type := some "ping" }] ∧
        (add_target targets name ip enabled).ping_triggered = true) := by
  refine ⟨?_, ?_, ?_⟩
  · rw [← validate_new_target_isSome]
    unfold add_target
    cases h : validate_new_target targets name ip <;> simp [h]
  · unfold add_target
    cases h : validate_new_target targets name ip <;> simp [h]
  · unfold add_target
    cases h : validate_new_target targets name ip <;> simp [h]

/-- Witness for C9: a target list holding `Gateway` at `192.168.1.1`
rejects adding another `Gateway` (a duplicate under the case-insensitive
name match), even with a fresh IP. -/
theorem add_target_rejects_duplicates_witness :
    (add_target
        [{ name := "Gateway", ip := "192.168.1.1", enabled := true,
           type := some "ping" }]
        "Gateway" "8.8.8.8" true).error.isSome = true :=
  (add_target_rejects_duplicates
      [{ name := "Gateway", ip := "192.168.1.1", enabled := true,
         type := some "ping" }] "Gateway" "8.8.8.8" true).1.mpr
    ⟨_, List.mem_singleton_self _, Or.inl rfl⟩

end NetMonitor
